import Mathlib

/-!
Verification of the fraud-detection risk-scoring engine in
`airflow/include/customer_risk_platform/fraud_analyzers.py`.

Python floats are modelled as exact rationals (`ℚ`); Python ints as `ℤ`
(or `ℕ` for counts that are provably non-negative).  `datetime` instants
are modelled as rational hour-offsets from `base_date = utcnow() - 90 days`.
CPython's salted string hash `hash(str(customer_id))` is modelled as an
explicit function parameter `hashFn : ℤ → ℤ` (its value depends on the
per-process hash salt, `PYTHONHASHSEED`); likewise the seeded numpy draws
`np.random.exponential(...)` / `np.random.uniform(6, 22)` are modelled as
per-seed draw streams supplied as parameters, and the engine clock
(`utcnow`) as explicit `baseHod` (hour of day of `base_date`) / `nowTs`
parameters.
-/

namespace CustomerRiskPlatform

/-- Risk level classification (`class RiskLevel(Enum)`). -/
inductive RiskLevel where
  | low
  | medium
  | high
  | critical
deriving Repr, DecidableEq

/-- `RiskLevel.value` — the string payload of each enum member. -/
def RiskLevel.value : RiskLevel → String
  | .low => "low"
  | .medium => "medium"
  | .high => "high"
  | .critical => "critical"

/-- `@dataclass FraudIndicator`. -/
structure FraudIndicator where
  indicator_type : String
  severity : String
  confidence : ℚ
  description : String
  contributing_factors : List String
deriving Repr, DecidableEq

/-- `{'max_daily': ..., 'avg_daily': ...}` velocity metrics. -/
structure VelocityMetrics where
  max_daily : ℕ
  avg_daily : ℚ
deriving Repr, DecidableEq

/-- An input customer-profile record (the dict handed to the engine by the
transformers stage).  Fields the analyzers read via `profile.get(...)`;
`full_name` is optional (`profile.get('full_name', 'Unknown')`). -/
structure CustomerProfile where
  customer_id : ℤ
  full_name : Option String
  total_orders : ℕ
  total_spent : ℚ
  avg_order_value : ℚ
  country : String
  customer_segment : String
  profile_completeness : ℚ
  product_diversity_score : ℚ
  customer_activity_score : ℚ
  email : String
  age : ℚ
  risk_indicators : List String
deriving Repr, DecidableEq

/-- The observable state of one profile dict: the base record plus the
derived keys that `_simulate_transaction_timestamps` stores INTO THE SAME
DICT OBJECT (`profile['transaction_timestamps'] = ...` mutates the caller's
instance in place).  `none` models "key absent".  Timestamps are hour
offsets from `base_date = utcnow() - timedelta(days=90)`. -/
structure ProfileState where
  base : CustomerProfile
  transaction_timestamps : Option (List ℚ)
  first_transaction : Option ℚ
  last_transaction : Option ℚ
  transaction_velocity : Option VelocityMetrics
deriving Repr, DecidableEq

/-- A fresh input dict: none of the derived keys present yet. -/
def initState (p : CustomerProfile) : ProfileState :=
  ⟨p, none, none, none, none⟩

/-- The six keys of `self.risk_weights` / `risk_scores`. -/
inductive RiskDimension where
  | velocity_risk
  | geographic_risk
  | behavioral_risk
  | profile_risk
  | amount_risk
  | temporal_risk
deriving Repr, DecidableEq

/-- Dict insertion order of `self.risk_weights` (= of `risk_scores`). -/
def dimensions : List RiskDimension :=
  [.velocity_risk, .geographic_risk, .behavioral_risk,
   .profile_risk, .amount_risk, .temporal_risk]

/-- `self.risk_weights` from `FraudDetectionEngine.__init__`. -/
def risk_weights : RiskDimension → ℚ
  | .velocity_risk => 0.25
  | .geographic_risk => 0.20
  | .behavioral_risk => 0.20
  | .profile_risk => 0.15
  | .amount_risk => 0.10
  | .temporal_risk => 0.10

/-- `self.risk_thresholds` from `FraudDetectionEngine.__init__`. -/
def risk_thresholds : RiskLevel → ℚ
  | .low => 0.3
  | .medium => 0.6
  | .high => 0.8
  | .critical => 0.9

/-- The six per-dimension scores collected into `risk_scores`. -/
structure RiskScores where
  velocity_risk : ℚ
  geographic_risk : ℚ
  behavioral_risk : ℚ
  profile_risk : ℚ
  amount_risk : ℚ
  temporal_risk : ℚ
deriving Repr, DecidableEq

/-- Dict lookup `risk_scores[d]`. -/
def RiskScores.get (rs : RiskScores) : RiskDimension → ℚ
  | .velocity_risk => rs.velocity_risk
  | .geographic_risk => rs.geographic_risk
  | .behavioral_risk => rs.behavioral_risk
  | .profile_risk => rs.profile_risk
  | .amount_risk => rs.amount_risk
  | .temporal_risk => rs.temporal_risk

/-- Python `s.lower()` (ASCII case mapping, which covers every string the
engine compares after lowering). -/
def pyLower (s : String) : String :=
  ⟨s.data.map Char.toLower⟩

/-- Python `"pat" in s` substring test. -/
def strContains (s pat : String) : Bool :=
  decide (pat.data <:+: s.data)

/-- Python `t % 100 == 0` for a float `t`: `t` is an integer multiple
of 100 (exact, since floats are modelled as rationals). -/
def isMultipleOf100 (t : ℚ) : Bool :=
  (t / 100).den == 1

/-- `_analyze_velocity_risk`.  `h` is the value of
`hash(str(profile['customer_id']))` in the running process. -/
def analyze_velocity_risk (h : ℤ) (p : ProfileState) : ℚ × List FraudIndicator :=
  let velocity_data := p.transaction_velocity.getD ⟨0, 0⟩
  let max_daily := velocity_data.max_daily
  let total_orders := p.base.total_orders
  let s1 : ℚ := if max_daily ≥ 5 then 0.6 else 0
  let i1 : List FraudIndicator :=
    if max_daily ≥ 5 then
      [⟨"HIGH_VELOCITY", "high", 0.8,
        "Customer made " ++ toString max_daily ++ " transactions in single day",
        ["unusual_transaction_frequency"]⟩]
    else []
  let burst := total_orders ≥ 10 ∧ (p.transaction_timestamps.getD []).length > 0 ∧ h % 20 = 0
  let s2 : ℚ := if burst then 0.4 else 0
  let i2 : List FraudIndicator :=
    if burst then
      [⟨"BURST_PATTERN", "medium", 0.7,
        "Detected burst of transactions in short timeframe",
        ["transaction_clustering"]⟩]
    else []
  (min 1 (0 + s1 + s2), i1 ++ i2)

/-- `_analyze_geographic_risk`. -/
def analyze_geographic_risk (h : ℤ) (p : ProfileState) : ℚ × List FraudIndicator :=
  let country := pyLower p.base.country
  let intl := country ∉ ["united states", "canada", "united kingdom"]
  let s1 : ℚ := if intl then 0.3 else 0
  let i1 : List FraudIndicator :=
    if intl then
      [⟨"INTERNATIONAL_PROFILE", "low", 0.6,
        "Customer located in " ++ country,
        ["geographic_location"]⟩]
    else []
  let travel := h % 25 = 0
  let s2 : ℚ := if travel then 0.7 else 0
  let i2 : List FraudIndicator :=
    if travel then
      [⟨"IMPOSSIBLE_TRAVEL", "high", 0.9,
        "Detected transactions from impossible geographic locations",
        ["geographic_anomaly", "location_spoofing"]⟩]
    else []
  (min 1 (0 + s1 + s2), i1 ++ i2)

/-- `_analyze_behavioral_risk`. -/
def analyze_behavioral_risk (p : ProfileState) : ℚ × List FraudIndicator :=
  let total_spent := p.base.total_spent
  let total_orders := p.base.total_orders
  let customer_segment := p.base.customer_segment
  let c1 := customer_segment = "new" ∧ total_spent > 2000
  let s1 : ℚ := if c1 then 0.5 else 0
  let i1 : List FraudIndicator :=
    if c1 then
      [⟨"NEW_CUSTOMER_HIGH_SPENDING", "medium", 0.7,
        "New customer with high spending: $" ++ toString total_spent,
        ["unusual_behavior_pattern"]⟩]
    else []
  let diversity_score := p.base.product_diversity_score
  let c2 := diversity_score > 0.9 ∧ total_orders ≥ 5
  let s2 : ℚ := if c2 then 0.3 else 0
  let i2 : List FraudIndicator :=
    if c2 then
      [⟨"UNUSUAL_PRODUCT_DIVERSITY", "low", 0.6,
        "Unusually diverse product purchase pattern",
        ["behavioral_anomaly"]⟩]
    else []
  (min 1 (0 + s1 + s2), i1 ++ i2)

/-- `_analyze_profile_risk`. -/
def analyze_profile_risk (p : ProfileState) : ℚ × List FraudIndicator :=
  let profile_completeness := p.base.profile_completeness
  let c1 := profile_completeness < 0.5
  let s1 : ℚ := if c1 then 0.4 else 0
  let i1 : List FraudIndicator :=
    if c1 then
      [⟨"INCOMPLETE_PROFILE", "medium", 0.8,
        "Profile only " ++ toString (profile_completeness * 100) ++ "% complete",
        ["missing_information"]⟩]
    else []
  let email := p.base.email
  let c2 := email ≠ "" ∧ (strContains email "temp" ∨ strContains email "disposable")
  let s2 : ℚ := if c2 then 0.6 else 0
  let i2 : List FraudIndicator :=
    if c2 then
      [⟨"SUSPICIOUS_EMAIL", "high", 0.9,
        "Potentially disposable email address",
        ["email_risk"]⟩]
    else []
  (min 1 (0 + s1 + s2), i1 ++ i2)

/-- `_analyze_amount_risk`. -/
def analyze_amount_risk (p : ProfileState) : ℚ × List FraudIndicator :=
  let avg_order_value := p.base.avg_order_value
  let total_spent := p.base.total_spent
  let c1 := avg_order_value > 1000
  let s1 : ℚ := if c1 then 0.4 else 0
  let i1 : List FraudIndicator :=
    if c1 then
      [⟨"HIGH_AVERAGE_ORDER", "medium", 0.7,
        "High average order value: $" ++ toString avg_order_value,
        ["amount_anomaly"]⟩]
    else []
  let c2 := total_spent > 0 ∧ isMultipleOf100 total_spent
  let s2 : ℚ := if c2 then 0.2 else 0
  let i2 : List FraudIndicator :=
    if c2 then
      [⟨"ROUND_NUMBER_BIAS", "low", 0.5,
        "Transaction amounts show round number pattern",
        ["amount_pattern"]⟩]
    else []
  (min 1 (0 + s1 + s2), i1 ++ i2)

/-- `_analyze_temporal_risk`. -/
def analyze_temporal_risk (h : ℤ) (p : ProfileState) : ℚ × List FraudIndicator :=
  let timestamps := p.transaction_timestamps.getD []
  let c1 := timestamps ≠ [] ∧ h % 15 = 0
  let s1 : ℚ := if c1 then 0.3 else 0
  let i1 : List FraudIndicator :=
    if c1 then
      [⟨"OFF_HOURS_ACTIVITY", "low", 0.6,
        "Unusual transaction timing patterns detected",
        ["temporal_anomaly"]⟩]
    else []
  (min 1 (0 + s1), i1)

/-- `_calculate_velocity_metrics`: group instants by calendar date and
count.  `baseHod` is the hour-of-day of `base_date` (the engine clock's
time of day, in `[0, 24)`); the calendar date of `base_date + o hours` is
`⌊(baseHod + o) / 24⌋` dates after `base_date`'s midnight. -/
def calculate_velocity_metrics (baseHod : ℚ) (timestamps : List ℚ) : VelocityMetrics :=
  if timestamps = [] then ⟨0, 0⟩
  else
    let keys : List ℤ := (timestamps.map (fun o => ⌊(baseHod + o) / 24⌋)).dedup
    let counts : List ℕ :=
      keys.map (fun k => (timestamps.map (fun o => ⌊(baseHod + o) / 24⌋)).count k)
    ⟨counts.foldr max 0, (counts.sum : ℚ) / (counts.length : ℚ)⟩

/-- One transaction offset (in hours from `base_date`) for order index `i`:
`days_offset = np.random.exponential(scale=90/total_orders) * i`, written as
`scale * e` with `e` the unit-exponential draw, then
`timedelta(days=min(89, days_offset), hours=hours_offset)`. -/
def transactionOffset (expDraw uniDraw : ℕ → ℚ) (total_orders : ℕ) (i : ℕ) : ℚ :=
  let days_offset : ℚ := 90 / (total_orders : ℚ) * expDraw i * (i : ℚ)
  let hours_offset : ℚ := uniDraw i
  24 * min 89 days_offset + hours_offset

/-- The synthesized, chronologically sorted timestamp sequence of
`_simulate_transaction_timestamps` for one profile (`total_orders > 0`
branch builds the list then `.sort()`s it; otherwise `[]`).  `expDraw i`
is the i-th unit-exponential draw and `uniDraw i` the i-th
`np.random.uniform(6, 22)` draw of the generator seeded with the
customer id. -/
def synthTimestamps (expDraw uniDraw : ℕ → ℚ) (total_orders : ℕ) : List ℚ :=
  if total_orders > 0 then
    List.insertionSort (· ≤ ·)
      ((List.range total_orders).map (transactionOffset expDraw uniDraw total_orders))
  else []

/-- The in-place update `_simulate_transaction_timestamps` performs on ONE
profile dict: the returned state is also the caller's view of that same
dict after the call (Python aliasing). -/
def simulateOne (expDraw uniDraw : ℕ → ℚ) (baseHod : ℚ) (p : ProfileState) : ProfileState :=
  let total_orders := p.base.total_orders
  if total_orders > 0 then
    let ts := synthTimestamps expDraw uniDraw total_orders
    { p with
      transaction_timestamps := some ts,
      first_transaction := ts.head?,
      last_transaction := ts.getLast?,
      transaction_velocity := some (calculate_velocity_metrics baseHod ts) }
  else
    { p with
      transaction_timestamps := some [],
      transaction_velocity := some ⟨0, 0⟩ }

/-- `_simulate_transaction_timestamps` over the whole list.  The numpy
generator is re-seeded with `customer_id` per profile, so the draw streams
are functions of the seed. -/
def simulate_transaction_timestamps (expDraw uniDraw : ℤ → ℕ → ℚ) (baseHod : ℚ)
    (profiles : List ProfileState) : List ProfileState :=
  profiles.map (fun p => simulateOne (expDraw p.base.customer_id) (uniDraw p.base.customer_id) baseHod p)

/-- The `risk_scores` dict built by `_perform_fraud_analysis`. -/
def riskScoresOf (h : ℤ) (p : ProfileState) : RiskScores :=
  ⟨(analyze_velocity_risk h p).1,
   (analyze_geographic_risk h p).1,
   (analyze_behavioral_risk p).1,
   (analyze_profile_risk p).1,
   (analyze_amount_risk p).1,
   (analyze_temporal_risk h p).1⟩

/-- The concatenated indicator list of `_perform_fraud_analysis`. -/
def indicatorsOf (h : ℤ) (p : ProfileState) : List FraudIndicator :=
  (analyze_velocity_risk h p).2 ++ (analyze_geographic_risk h p).2 ++
  (analyze_behavioral_risk p).2 ++ (analyze_profile_risk p).2 ++
  (analyze_amount_risk p).2 ++ (analyze_temporal_risk h p).2

/-- `_calculate_composite_risk_score`: iterate the `risk_scores` dict in
insertion order, accumulate `score * weight`, cap at 1.0. -/
def calculate_composite_risk_score (rs : RiskScores) : ℚ :=
  min 1 ((dimensions.map (fun d => rs.get d * risk_weights d)).sum)

/-- `_determine_risk_level`. -/
def determine_risk_level (composite_score : ℚ) : RiskLevel :=
  if composite_score ≥ risk_thresholds .critical then .critical
  else if composite_score ≥ risk_thresholds .high then .high
  else if composite_score ≥ risk_thresholds .medium then .medium
  else .low

/-- `_calculate_confidence`. -/
def calculate_confidence (risk_score : ℚ) : ℚ :=
  min 0.95 (0.5 + risk_score * 0.45)

/-- Fixed-key feature map of `_extract_ml_features`. -/
structure MLFeatures where
  age : ℚ
  profile_completeness : ℚ
  total_spent : ℚ
  total_orders : ℚ
  avg_order_value : ℚ
  product_diversity_score : ℚ
  customer_activity_score : ℚ
  risk_scores : RiskScores
  max_daily_transactions : ℚ
  avg_daily_transactions : ℚ
  is_international : ℚ
  is_premium_customer : ℚ
  has_risk_indicators : ℚ
deriving Repr, DecidableEq

/-- `_extract_ml_features`. -/
def extract_ml_features (p : ProfileState) (rs : RiskScores) : MLFeatures :=
  { age := p.base.age
    profile_completeness := p.base.profile_completeness
    total_spent := p.base.total_spent
    total_orders := (p.base.total_orders : ℚ)
    avg_order_value := p.base.avg_order_value
    product_diversity_score := p.base.product_diversity_score
    customer_activity_score := p.base.customer_activity_score
    risk_scores := rs
    max_daily_transactions := ((p.transaction_velocity.getD ⟨0, 0⟩).max_daily : ℚ)
    avg_daily_transactions := (p.transaction_velocity.getD ⟨0, 0⟩).avg_daily
    is_international :=
      if pyLower p.base.country ∉ ["united states", "canada"] then 1 else 0
    is_premium_customer := if p.base.customer_segment = "premium" then 1 else 0
    has_risk_indicators := if p.base.risk_indicators.length > 0 then 1 else 0 }

/-- The enriched record `{**profile, **risk_assessment, 'fraud_indicators': ...,
'ml_features': ...}` built in `enrich_fraud_indicators` (a NEW dict). -/
structure EnrichedProfile where
  state : ProfileState
  composite_risk_score : ℚ
  risk_level : String
  individual_risk_scores : RiskScores
  risk_classification_confidence : ℚ
  fraud_indicators : List FraudIndicator
  ml_features : MLFeatures
deriving Repr, DecidableEq

/-- `_perform_fraud_analysis` + the enrichment merge for one profile. -/
def mkEnriched (h : ℤ) (p : ProfileState) : EnrichedProfile :=
  let rs := riskScoresOf h p
  let composite_score := calculate_composite_risk_score rs
  { state := p
    composite_risk_score := composite_score
    risk_level := (determine_risk_level composite_score).value
    individual_risk_scores := rs
    risk_classification_confidence := calculate_confidence composite_score
    fraud_indicators := indicatorsOf h p
    ml_features := extract_ml_features p rs }

/-- `_get_recommended_action`: `actions.get(risk_level, 'STANDARD_MONITORING')`. -/
def get_recommended_action (risk_level : String) : String :=
  if risk_level = "critical" then "IMMEDIATE_INVESTIGATION_REQUIRED"
  else if risk_level = "high" then "PRIORITY_REVIEW"
  else if risk_level = "medium" then "ENHANCED_MONITORING"
  else if risk_level = "low" then "STANDARD_MONITORING"
  else "STANDARD_MONITORING"

/-- `_get_investigation_priority`. -/
def get_investigation_priority (risk_score : ℚ) : String :=
  if risk_score ≥ 0.9 then "P1_URGENT"
  else if risk_score ≥ 0.8 then "P2_HIGH"
  else if risk_score ≥ 0.6 then "P3_MEDIUM"
  else "P4_LOW"

/-- A fraud alert record.  `nowTs` is `int(datetime.utcnow().timestamp())`;
the iso `alert_timestamp` string is represented by the same clock value. -/
structure FraudAlert where
  alert_id : String
  customer_id : ℤ
  customer_name : String
  risk_level : String
  risk_score : ℚ
  primary_indicators : List String
  alert_timestamp : ℤ
  recommended_action : String
  investigation_priority : String
deriving Repr, DecidableEq

/-- `_create_fraud_alert`. -/
def create_fraud_alert (nowTs : ℤ) (p : EnrichedProfile) : FraudAlert :=
  { alert_id := "FRAUD_" ++ toString p.state.base.customer_id ++ "_" ++ toString nowTs
    customer_id := p.state.base.customer_id
    customer_name := p.state.base.full_name.getD "Unknown"
    risk_level := p.risk_level
    risk_score := p.composite_risk_score
    primary_indicators := (p.fraud_indicators.take 3).map (·.indicator_type)
    alert_timestamp := nowTs
    recommended_action := get_recommended_action p.risk_level
    investigation_priority := get_investigation_priority p.composite_risk_score }

/-- One `{'count': ..., 'percentage': ...}` entry of `risk_distribution`. -/
structure LevelStat where
  count : ℕ
  percentage : ℚ
deriving Repr, DecidableEq

/-- `sum(1 for p in profiles if p.get('risk_level') == level.value)`. -/
def levelCount (profiles : List EnrichedProfile) (level : RiskLevel) : ℕ :=
  (profiles.filter (fun p => p.risk_level = level.value)).length

/-- One level's entry of `risk_distribution`. -/
def levelStat (profiles : List EnrichedProfile) (level : RiskLevel) : LevelStat :=
  let total_customers := profiles.length
  let count := levelCount profiles level
  ⟨count, if total_customers > 0 then (count : ℚ) / (total_customers : ℚ) * 100 else 0⟩

/-- The metrics dict of `_calculate_fraud_metrics`. -/
structure FraudMetrics where
  total_customers_analyzed : ℕ
  dist_low : LevelStat
  dist_medium : LevelStat
  dist_high : LevelStat
  dist_critical : LevelStat
  average_risk_score : ℚ
  high_risk_customers : ℕ
  fraud_detection_rate : ℚ
deriving Repr, DecidableEq

/-- `_calculate_fraud_metrics`. -/
def calculate_fraud_metrics (profiles : List EnrichedProfile) : FraudMetrics :=
  let total_customers := profiles.length
  { total_customers_analyzed := total_customers
    dist_low := levelStat profiles .low
    dist_medium := levelStat profiles .medium
    dist_high := levelStat profiles .high
    dist_critical := levelStat profiles .critical
    average_risk_score :=
      if total_customers > 0 then
        (profiles.map (·.composite_risk_score)).sum / (total_customers : ℚ)
      else 0
    high_risk_customers := levelCount profiles .high + levelCount profiles .critical
    fraud_detection_rate :=
      if total_customers > 0 then
        ((levelCount profiles .high + levelCount profiles .critical : ℕ) : ℚ)
          / (total_customers : ℚ) * 100
      else 0 }

/-- The output record of `FraudDetectionEngine.enrich_fraud_indicators`
(the `analysis_timestamp` clock string is omitted). -/
structure FraudAnalysisResult where
  risk_analyzed_profiles : List EnrichedProfile
  fraud_alerts : List FraudAlert
  fraud_metrics : FraudMetrics
deriving Repr, DecidableEq

/-- Loop body of the `for profile in profiles_with_timestamps` loop. -/
def enrichStep (hashFn : ℤ → ℤ) (nowTs : ℤ)
    (acc : List EnrichedProfile × List FraudAlert) (p : ProfileState) :
    List EnrichedProfile × List FraudAlert :=
  let e := mkEnriched (hashFn p.base.customer_id) p
  (acc.1 ++ [e],
   if e.risk_level = "high" ∨ e.risk_level = "critical"
   then acc.2 ++ [create_fraud_alert nowTs e] else acc.2)

/-- `FraudDetectionEngine.enrich_fraud_indicators`: simulate timestamps,
loop over profiles accumulating enriched records and alerts, compute
metrics.  `hashFn cid` models `hash(str(cid))` in the running process. -/
def enrich_fraud_indicators (hashFn : ℤ → ℤ) (expDraw uniDraw : ℤ → ℕ → ℚ)
    (baseHod : ℚ) (nowTs : ℤ) (customer_profiles : List CustomerProfile) :
    FraudAnalysisResult :=
  let profiles_with_timestamps :=
    simulate_transaction_timestamps expDraw uniDraw baseHod
      (customer_profiles.map initState)
  let acc := profiles_with_timestamps.foldl (enrichStep hashFn nowTs) ([], [])
  { risk_analyzed_profiles := acc.1
    fraud_alerts := acc.2
    fraud_metrics := calculate_fraud_metrics acc.1 }

/-- Modelled from the spec: `clamp01(x)` clamps a value to `[0, 1]` (used
to compare the spec's composite formula with the code's). -/
def clamp01 (x : ℚ) : ℚ :=
  max 0 (min 1 x)

/-- The alert condition `risk_level in ['high', 'critical']` of the
enrichment loop, as a Boolean predicate. -/
def isHighOrCriticalLevel (e : EnrichedProfile) : Bool :=
  e.risk_level == "high" || e.risk_level == "critical"

/-- A concrete low-risk customer profile (zero orders, domestic). -/
def sampleProfile : CustomerProfile :=
  ⟨1, none, 0, 0, 0, "united states", "returning", 1, 0, 0, "a@b.com", 30, []⟩

/-- A concrete enriched profile, obtained by running the per-profile
pipeline on `sampleProfile` with hash value 1. -/
def sampleEnriched : EnrichedProfile :=
  mkEnriched 1 (initState sampleProfile)

/-- A concrete profile located in the United Kingdom. -/
def ukProfile : CustomerProfile :=
  ⟨7, none, 0, 0, 0, "united kingdom", "new", 1, 0, 0, "x@y.com", 40, []⟩

/-! ## Helper lemmas -/

lemma velocity_risk_bounds (h : ℤ) (p : ProfileState) :
    0 ≤ (analyze_velocity_risk h p).1 ∧ (analyze_velocity_risk h p).1 ≤ 1 := by
  unfold analyze_velocity_risk
  dsimp only
  refine ⟨le_min (by norm_num) ?_, min_le_left _ _⟩
  split_ifs <;> norm_num

lemma geographic_risk_bounds (h : ℤ) (p : ProfileState) :
    0 ≤ (analyze_geographic_risk h p).1 ∧ (analyze_geographic_risk h p).1 ≤ 1 := by
  unfold analyze_geographic_risk
  dsimp only
  refine ⟨le_min (by norm_num) ?_, min_le_left _ _⟩
  split_ifs <;> norm_num

lemma behavioral_risk_bounds (p : ProfileState) :
    0 ≤ (analyze_behavioral_risk p).1 ∧ (analyze_behavioral_risk p).1 ≤ 0.8 := by
  unfold analyze_behavioral_risk
  dsimp only
  refine ⟨le_min (by norm_num) ?_, le_trans (min_le_right _ _) ?_⟩ <;>
    split_ifs <;> norm_num

lemma profile_risk_bounds (p : ProfileState) :
    0 ≤ (analyze_profile_risk p).1 ∧ (analyze_profile_risk p).1 ≤ 1 := by
  unfold analyze_profile_risk
  dsimp only
  refine ⟨le_min (by norm_num) ?_, min_le_left _ _⟩
  split_ifs <;> norm_num

lemma amount_risk_bounds (p : ProfileState) :
    0 ≤ (analyze_amount_risk p).1 ∧ (analyze_amount_risk p).1 ≤ 0.6 := by
  unfold analyze_amount_risk
  dsimp only
  refine ⟨le_min (by norm_num) ?_, le_trans (min_le_right _ _) ?_⟩ <;>
    split_ifs <;> norm_num

lemma temporal_risk_bounds (h : ℤ) (p : ProfileState) :
    0 ≤ (analyze_temporal_risk h p).1 ∧ (analyze_temporal_risk h p).1 ≤ 0.3 := by
  unfold analyze_temporal_risk
  dsimp only
  refine ⟨le_min (by norm_num) ?_, le_trans (min_le_right _ _) ?_⟩ <;>
    split_ifs <;> norm_num

/-- The weighted sum over the six dimensions, written out. -/
lemma weightedSum_expand (rs : RiskScores) :
    (dimensions.map (fun d => rs.get d * risk_weights d)).sum =
      rs.velocity_risk * 0.25 + rs.geographic_risk * 0.20 +
      rs.behavioral_risk * 0.20 + rs.profile_risk * 0.15 +
      rs.amount_risk * 0.10 + rs.temporal_risk * 0.10 := by
  simp [dimensions, RiskScores.get, risk_weights]
  ring

lemma weightedSum_nonneg (h : ℤ) (p : ProfileState) :
    0 ≤ (dimensions.map (fun d => (riskScoresOf h p).get d * risk_weights d)).sum := by
  rw [weightedSum_expand]
  have h1 := velocity_risk_bounds h p
  have h2 := geographic_risk_bounds h p
  have h3 := behavioral_risk_bounds p
  have h4 := profile_risk_bounds p
  have h5 := amount_risk_bounds p
  have h6 := temporal_risk_bounds h p
  unfold riskScoresOf
  dsimp only
  nlinarith [h1.1, h2.1, h3.1, h4.1, h5.1, h6.1]

lemma weightedSum_le (h : ℤ) (p : ProfileState) :
    (dimensions.map (fun d => (riskScoresOf h p).get d * risk_weights d)).sum ≤ 0.85 := by
  rw [weightedSum_expand]
  have h1 := velocity_risk_bounds h p
  have h2 := geographic_risk_bounds h p
  have h3 := behavioral_risk_bounds p
  have h4 := profile_risk_bounds p
  have h5 := amount_risk_bounds p
  have h6 := temporal_risk_bounds h p
  unfold riskScoresOf
  dsimp only
  nlinarith [h1.2, h2.2, h3.2, h4.2, h5.2, h6.2]

lemma composite_nonneg (h : ℤ) (p : ProfileState) :
    0 ≤ calculate_composite_risk_score (riskScoresOf h p) :=
  le_min (by norm_num) (weightedSum_nonneg h p)

lemma composite_le (h : ℤ) (p : ProfileState) :
    calculate_composite_risk_score (riskScoresOf h p) ≤ 0.85 :=
  le_trans (min_le_right _ _) (weightedSum_le h p)

lemma enrich_foldl_spec (hashFn : ℤ → ℤ) (nowTs : ℤ) :
    ∀ (l : List ProfileState) (acc : List EnrichedProfile × List FraudAlert),
      l.foldl (enrichStep hashFn nowTs) acc =
        (acc.1 ++ l.map (fun p => mkEnriched (hashFn p.base.customer_id) p),
         acc.2 ++ ((l.map (fun p => mkEnriched (hashFn p.base.customer_id) p)).filter
             isHighOrCriticalLevel).map (create_fraud_alert nowTs)) := by
  intro l
  induction l with
  | nil => simp
  | cons p t ih =>
    intro acc
    rw [List.foldl_cons, ih]
    unfold enrichStep isHighOrCriticalLevel
    dsimp only
    split_ifs with hc
    · simp only [List.map_cons, List.filter_cons]
      have : ((mkEnriched (hashFn p.base.customer_id) p).risk_level == "high" ||
          (mkEnriched (hashFn p.base.customer_id) p).risk_level == "critical") = true := by
        rcases hc with hc | hc <;> simp [hc]
      rw [if_pos this]
      simp
    · simp only [List.map_cons, List.filter_cons]
      have : ((mkEnriched (hashFn p.base.customer_id) p).risk_level == "high" ||
          (mkEnriched (hashFn p.base.customer_id) p).risk_level == "critical") = false := by
        simp only [Bool.or_eq_false_iff, beq_eq_false_iff_ne]
        exact ⟨fun hh => hc (Or.inl hh), fun hh => hc (Or.inr hh)⟩
      rw [this]
      simp

/-- The two output lists of a run, in closed form. -/
lemma enrich_components (hashFn : ℤ → ℤ) (expDraw uniDraw : ℤ → ℕ → ℚ)
    (baseHod : ℚ) (nowTs : ℤ) (ps : List CustomerProfile) :
    (enrich_fraud_indicators hashFn expDraw uniDraw baseHod nowTs ps).risk_analyzed_profiles =
      (simulate_transaction_timestamps expDraw uniDraw baseHod (ps.map initState)).map
        (fun p => mkEnriched (hashFn p.base.customer_id) p) ∧
    (enrich_fraud_indicators hashFn expDraw uniDraw baseHod nowTs ps).fraud_alerts =
      (((simulate_transaction_timestamps expDraw uniDraw baseHod (ps.map initState)).map
          (fun p => mkEnriched (hashFn p.base.customer_id) p)).filter
        isHighOrCriticalLevel).map (create_fraud_alert nowTs) := by
  unfold enrich_fraud_indicators
  dsimp only
  rw [enrich_foldl_spec]
  simp

lemma determine_ne_critical {x : ℚ} (hx : x ≤ 0.85) :
    determine_risk_level x ≠ RiskLevel.critical := by
  unfold determine_risk_level risk_thresholds
  split_ifs with h1 h2 h3 <;> first | (exfalso; norm_num at h1; linarith) | simp

lemma action_of_level_ne {l : RiskLevel} (hl : l ≠ RiskLevel.critical) :
    get_recommended_action l.value ≠ "IMMEDIATE_INVESTIGATION_REQUIRED" := by
  cases l with
  | critical => exact absurd rfl hl
  | low => decide
  | medium => decide
  | high => decide

lemma priority_ne_P1 {x : ℚ} (hx : x ≤ 0.85) :
    get_investigation_priority x ≠ "P1_URGENT" := by
  unfold get_investigation_priority
  split_ifs with h1 h2 h3
  · exfalso; norm_num at h1; linarith
  · decide
  · decide
  · decide

lemma mkEnriched_composite (h : ℤ) (p : ProfileState) :
    (mkEnriched h p).composite_risk_score =
      calculate_composite_risk_score (riskScoresOf h p) := rfl

lemma mkEnriched_level (h : ℤ) (p : ProfileState) :
    (mkEnriched h p).risk_level =
      (determine_risk_level (calculate_composite_risk_score (riskScoresOf h p))).value := rfl

/-! ## Claims -/

/-- C1: for every profile the composite risk score equals the weighted sum
of the six dimension scores clamped to `[0,1]`, with the fixed weights
velocity 0.25, geographic 0.20, behavioral 0.20, profile 0.15, amount 0.10,
temporal 0.10, and these six weights sum to exactly 1. -/
theorem C1_composite_is_clamped_weighted_sum :
    (dimensions.map risk_weights).sum = 1 ∧
    risk_weights .velocity_risk = 0.25 ∧
    risk_weights .geographic_risk = 0.20 ∧
    risk_weights .behavioral_risk = 0.20 ∧
    risk_weights .profile_risk = 0.15 ∧
    risk_weights .amount_risk = 0.10 ∧
    risk_weights .temporal_risk = 0.10 ∧
    ∀ (h : ℤ) (p : ProfileState),
      calculate_composite_risk_score (riskScoresOf h p) =
        clamp01 ((dimensions.map
          (fun d => risk_weights d * (riskScoresOf h p).get d)).sum) := by
  refine ⟨by norm_num [dimensions, risk_weights], rfl, rfl, rfl, rfl, rfl, rfl, ?_⟩
  intro h p
  have hs : (dimensions.map (fun d => risk_weights d * (riskScoresOf h p).get d)).sum =
      (dimensions.map (fun d => (riskScoresOf h p).get d * risk_weights d)).sum := by
    simp [dimensions]; ring
  rw [clamp01, hs, max_eq_right]
  · rfl
  · exact le_min (by norm_num) (weightedSum_nonneg h p)

/-- C2: the risk level is determined by descending thresholds: `x ≥ 0.9`
is critical, `0.8 ≤ x < 0.9` is high, `0.6 ≤ x < 0.8` is medium and
`x < 0.6` is low; exactly 0.9 classifies as critical. -/
theorem C2_risk_level_thresholds :
    ∀ x : ℚ,
      (determine_risk_level x = .critical ↔ 0.9 ≤ x) ∧
      (determine_risk_level x = .high ↔ 0.8 ≤ x ∧ x < 0.9) ∧
      (determine_risk_level x = .medium ↔ 0.6 ≤ x ∧ x < 0.8) ∧
      (determine_risk_level x = .low ↔ x < 0.6) ∧
      determine_risk_level 0.9 = .critical := by
  intro x
  unfold determine_risk_level risk_thresholds
  norm_num
  refine ⟨?_, ?_, ?_, ?_⟩ <;> split_ifs <;> simp_all <;> intros <;> linarith

/-- C4: every dimension score lies in `[0,1]`, the composite score lies in
`[0,1]`, and the classification confidence, equal to
`min(0.95, 0.5 + composite * 0.45)`, lies in `[0.5, 0.95]`. -/
theorem C4_score_bounds :
    ∀ (h : ℤ) (p : ProfileState),
      (∀ d, 0 ≤ (riskScoresOf h p).get d ∧ (riskScoresOf h p).get d ≤ 1) ∧
      (0 ≤ calculate_composite_risk_score (riskScoresOf h p) ∧
        calculate_composite_risk_score (riskScoresOf h p) ≤ 1) ∧
      calculate_confidence (calculate_composite_risk_score (riskScoresOf h p)) =
        min 0.95 (0.5 + calculate_composite_risk_score (riskScoresOf h p) * 0.45) ∧
      (0.5 ≤ calculate_confidence (calculate_composite_risk_score (riskScoresOf h p)) ∧
        calculate_confidence (calculate_composite_risk_score (riskScoresOf h p)) ≤ 0.95) := by
  intro h p
  have h1 := velocity_risk_bounds h p
  have h2 := geographic_risk_bounds h p
  have h3 := behavioral_risk_bounds p
  have h4 := profile_risk_bounds p
  have h5 := amount_risk_bounds p
  have h6 := temporal_risk_bounds h p
  refine ⟨?_, ⟨composite_nonneg h p, min_le_left _ _⟩, rfl,
    le_min (by norm_num) ?_, min_le_left _ _⟩
  · intro d
    cases d <;> simp only [riskScoresOf, RiskScores.get] <;>
      first
        | exact h1
        | exact h2
        | exact ⟨h3.1, le_trans h3.2 (by norm_num)⟩
        | exact h4
        | exact ⟨h5.1, le_trans h5.2 (by norm_num)⟩
        | exact ⟨h6.1, le_trans h6.2 (by norm_num)⟩
  · have := composite_nonneg h p
    linarith

/-- C5: the composite risk score never exceeds 0.85 (the weighted sum of
the per-dimension maxima 1.0, 1.0, 0.8, 1.0, 0.6, 0.3), so the level
`critical` is never assigned, and no alert of any run carries recommended
action IMMEDIATE_INVESTIGATION_REQUIRED or priority P1_URGENT. -/
theorem C5_critical_never_assigned :
    (∀ (h : ℤ) (p : ProfileState),
      calculate_composite_risk_score (riskScoresOf h p) ≤ 0.85 ∧
      determine_risk_level (calculate_composite_risk_score (riskScoresOf h p)) ≠
        RiskLevel.critical) ∧
    ∀ (hashFn : ℤ → ℤ) (expDraw uniDraw : ℤ → ℕ → ℚ) (baseHod : ℚ) (nowTs : ℤ)
      (ps : List CustomerProfile),
      ((enrich_fraud_indicators hashFn expDraw uniDraw baseHod nowTs ps).fraud_alerts.all
        (fun a => a.recommended_action != "IMMEDIATE_INVESTIGATION_REQUIRED" &&
                  a.investigation_priority != "P1_URGENT")) = true := by
  constructor
  · intro h p
    exact ⟨composite_le h p, determine_ne_critical (composite_le h p)⟩
  · intro hashFn expDraw uniDraw baseHod nowTs ps
    rw [(enrich_components hashFn expDraw uniDraw baseHod nowTs ps).2, List.all_eq_true]
    intro a ha
    rw [List.mem_map] at ha
    obtain ⟨e, hef, rfl⟩ := ha
    rw [List.mem_filter, List.mem_map] at hef
    obtain ⟨⟨p', _, rfl⟩, _⟩ := hef
    have hle := composite_le (hashFn p'.base.customer_id) p'
    have h1 : (create_fraud_alert nowTs
        (mkEnriched (hashFn p'.base.customer_id) p')).recommended_action ≠
        "IMMEDIATE_INVESTIGATION_REQUIRED" := by
      show get_recommended_action (mkEnriched _ _).risk_level ≠ _
      rw [mkEnriched_level]
      exact action_of_level_ne (determine_ne_critical hle)
    have h2 : (create_fraud_alert nowTs
        (mkEnriched (hashFn p'.base.customer_id) p')).investigation_priority ≠
        "P1_URGENT" := by
      show get_investigation_priority (mkEnriched _ _).composite_risk_score ≠ _
      rw [mkEnriched_composite]
      exact priority_ne_P1 hle
    simp only [Bool.and_eq_true, bne_iff_ne, ne_eq]
    exact ⟨h1, h2⟩

/-- C7: in every run, the alert list is exactly the high-or-critical
subsequence of the enriched profiles mapped through alert creation (so an
alert is produced for a profile iff its risk level is high or critical, and
at most one alert per profile), and the recommended action is the fixed
deterministic map of the risk level. -/
theorem C7_alert_generation :
    (∀ (hashFn : ℤ → ℤ) (expDraw uniDraw : ℤ → ℕ → ℚ) (baseHod : ℚ) (nowTs : ℤ)
       (ps : List CustomerProfile),
      (enrich_fraud_indicators hashFn expDraw uniDraw baseHod nowTs ps).fraud_alerts =
        ((enrich_fraud_indicators hashFn expDraw uniDraw baseHod nowTs
            ps).risk_analyzed_profiles.filter isHighOrCriticalLevel).map
          (create_fraud_alert nowTs) ∧
      (enrich_fraud_indicators hashFn expDraw uniDraw baseHod nowTs
          ps).fraud_alerts.length ≤ ps.length) ∧
    get_recommended_action "critical" = "IMMEDIATE_INVESTIGATION_REQUIRED" ∧
    get_recommended_action "high" = "PRIORITY_REVIEW" ∧
    get_recommended_action "medium" = "ENHANCED_MONITORING" ∧
    get_recommended_action "low" = "STANDARD_MONITORING" ∧
    ∀ (nowTs : ℤ) (e : EnrichedProfile),
      (create_fraud_alert nowTs e).recommended_action =
        get_recommended_action e.risk_level := by
  refine ⟨?_, rfl, rfl, rfl, rfl, fun _ _ => rfl⟩
  intro hashFn expDraw uniDraw baseHod nowTs ps
  obtain ⟨h1, h2⟩ := enrich_components hashFn expDraw uniDraw baseHod nowTs ps
  refine ⟨by rw [h1, h2], ?_⟩
  rw [h2]
  calc ((((simulate_transaction_timestamps expDraw uniDraw baseHod
        (ps.map initState)).map
          (fun p => mkEnriched (hashFn p.base.customer_id) p)).filter
            isHighOrCriticalLevel).map (create_fraud_alert nowTs)).length
      ≤ ((simulate_transaction_timestamps expDraw uniDraw baseHod
          (ps.map initState)).map
            (fun p => mkEnriched (hashFn p.base.customer_id) p)).length := by
        rw [List.length_map]; exact List.length_filter_le _ _
    _ = ps.length := by
        unfold simulate_transaction_timestamps
        simp

/-- C8: the batch aggregator on an empty batch returns zero-valued metrics
(total 0, average 0, detection rate 0, every per-level percentage 0)
without dividing by zero; on a non-empty batch the detection rate equals
(high count + critical count) / total * 100. -/
theorem C8_batch_metrics :
    ((calculate_fraud_metrics []).total_customers_analyzed = 0 ∧
     (calculate_fraud_metrics []).average_risk_score = 0 ∧
     (calculate_fraud_metrics []).fraud_detection_rate = 0 ∧
     (calculate_fraud_metrics []).dist_low.percentage = 0 ∧
     (calculate_fraud_metrics []).dist_medium.percentage = 0 ∧
     (calculate_fraud_metrics []).dist_high.percentage = 0 ∧
     (calculate_fraud_metrics []).dist_critical.percentage = 0) ∧
    ∀ ps : List EnrichedProfile, ps ≠ [] →
      (calculate_fraud_metrics ps).fraud_detection_rate =
        ((levelCount ps .high + levelCount ps .critical : ℕ) : ℚ) /
          (ps.length : ℚ) * 100 := by
  constructor
  · exact ⟨rfl, rfl, rfl, rfl, rfl, rfl, rfl⟩
  · intro ps hps
    unfold calculate_fraud_metrics
    dsimp only
    rw [if_pos (List.length_pos.mpr hps)]

/-- Witness for C8 at the singleton batch `[sampleEnriched]`. -/
theorem C8_batch_metrics_witness :
    (calculate_fraud_metrics [sampleEnriched]).fraud_detection_rate =
      ((levelCount [sampleEnriched] .high + levelCount [sampleEnriched] .critical : ℕ) : ℚ) /
        (([sampleEnriched] : List EnrichedProfile).length : ℚ) * 100 :=
  C8_batch_metrics.2 [sampleEnriched] (by simp)

/-- C9: timestamp synthesis returns `[]` for zero orders; otherwise a
sequence of length `total_orders`, sorted ascending, with every instant
inside the 90-day (= 2160-hour) lookback window ending at the current
time.  `expDraw` are the unit-exponential draws (non-negative) and
`uniDraw` the `uniform(6, 22)` draws of the seeded generator. -/
theorem C9_timestamp_synthesis (expDraw uniDraw : ℕ → ℚ)
    (hexp : ∀ i, 0 ≤ expDraw i)
    (huni : ∀ i, 6 ≤ uniDraw i ∧ uniDraw i < 22) (n : ℕ) :
    (n = 0 → synthTimestamps expDraw uniDraw n = []) ∧
    (synthTimestamps expDraw uniDraw n).length = n ∧
    List.Sorted (· ≤ ·) (synthTimestamps expDraw uniDraw n) ∧
    ∀ o ∈ synthTimestamps expDraw uniDraw n, 0 ≤ o ∧ o < 2160 := by
  refine ⟨?_, ?_, ?_, ?_⟩
  · intro hn
    subst hn
    rfl
  · unfold synthTimestamps
    split_ifs with h
    · rw [List.length_insertionSort, List.length_map, List.length_range]
    · simp only [List.length_nil]
      omega
  · unfold synthTimestamps
    split_ifs with h
    · exact List.sorted_insertionSort _ _
    · exact List.sorted_nil
  · intro o ho
    unfold synthTimestamps at ho
    split_ifs at ho with h
    · rw [List.mem_insertionSort, List.mem_map] at ho
      obtain ⟨i, _, rfl⟩ := ho
      unfold transactionOffset
      dsimp only
      have hn : (0:ℚ) < (n:ℚ) := by exact_mod_cast h
      have hd : 0 ≤ 90 / (n:ℚ) * expDraw i * (i:ℚ) :=
        mul_nonneg (mul_nonneg (div_nonneg (by norm_num) hn.le) (hexp i))
          (Nat.cast_nonneg i)
      have hmin1 : 0 ≤ min 89 (90 / (n:ℚ) * expDraw i * (i:ℚ)) :=
        le_min (by norm_num) hd
      have hmin2 : min 89 (90 / (n:ℚ) * expDraw i * (i:ℚ)) ≤ 89 := min_le_left _ _
      obtain ⟨hu1, hu2⟩ := huni i
      constructor <;> linarith
    · simp at ho

/-- Witness for C9: constant draw streams and three orders. -/
theorem C9_timestamp_synthesis_witness :
    ((3:ℕ) = 0 → synthTimestamps (fun _ => 1) (fun _ => 10) 3 = []) ∧
    (synthTimestamps (fun _ => 1) (fun _ => 10) 3).length = 3 ∧
    List.Sorted (· ≤ ·) (synthTimestamps (fun _ => 1) (fun _ => 10) 3) ∧
    ∀ o ∈ synthTimestamps (fun _ => 1) (fun _ => 10) 3, 0 ≤ o ∧ o < 2160 :=
  C9_timestamp_synthesis (fun _ => 1) (fun _ => 10)
    (fun _ => by norm_num) (fun _ => by norm_num) 3

/-- C10: the ML feature `is_international` is 1 exactly when the
lower-cased country is not in {united states, canada}; for a profile in
the United Kingdom it is 1 even though the geographic analyzer (whose set
also contains united kingdom) emits no INTERNATIONAL_PROFILE indicator for
that same profile. -/
theorem C10_is_international_inconsistency :
    (∀ (p : ProfileState) (rs : RiskScores),
      ((extract_ml_features p rs).is_international = 1 ↔
        pyLower p.base.country ∉ ["united states", "canada"])) ∧
    (extract_ml_features (initState ukProfile) ⟨0, 0, 0, 0, 0, 0⟩).is_international = 1 ∧
    ∀ h : ℤ,
      ((analyze_geographic_risk h (initState ukProfile)).2.all
        (fun ind => ind.indicator_type != "INTERNATIONAL_PROFILE")) = true := by
  refine ⟨?_, ?_, ?_⟩
  · intro p rs
    unfold extract_ml_features
    dsimp only
    split_ifs with hc
    · simp [hc]
    · simp [hc]
  · unfold extract_ml_features
    dsimp only
    rw [if_pos (by decide)]
  · intro h
    unfold analyze_geographic_risk initState
    dsimp only
    rw [if_neg (by decide :
      ¬ pyLower ukProfile.country ∉ ["united states", "canada", "united kingdom"])]
    split_ifs <;> decide

/-- The claim that `_simulate_transaction_timestamps` leaves the caller's
profile instance unchanged fails: even for a zero-order profile it stores
the `transaction_timestamps` and `transaction_velocity` keys into the
caller's dict. -/
theorem C6_counterexample :
    simulateOne (fun _ => 0) (fun _ => 0) 0 (initState sampleProfile) ≠
      initState sampleProfile := by
  intro hEq
  have h2 := congrArg ProfileState.transaction_timestamps hEq
  simp [simulateOne, initState, sampleProfile] at h2

/-- C6 amended: the engine mutates the caller's profile instance in place,
but only by adding the derived keys — after timestamp simulation the
caller's dict always carries `transaction_timestamps` and
`transaction_velocity`, while every base CustomerProfile field is
unchanged. -/
theorem C6_mutates_only_derived_fields :
    ∀ (expDraw uniDraw : ℕ → ℚ) (baseHod : ℚ) (p : ProfileState),
      (simulateOne expDraw uniDraw baseHod p).base = p.base ∧
      (simulateOne expDraw uniDraw baseHod p).transaction_timestamps.isSome = true ∧
      (simulateOne expDraw uniDraw baseHod p).transaction_velocity.isSome = true := by
  intro e u b p
  unfold simulateOne
  dsimp only
  split_ifs <;> exact ⟨rfl, rfl, rfl⟩

/-- C3: the hash-based anomaly checks are NOT reproducible across runs.
`hash(str(customer_id))` is CPython's per-process salted string hash, so
its value is an environment input: two processes in which the hash of the
same customer id differs (here 0 vs 7 modulo 25) produce different
geographic analyses for the same profile — the IMPOSSIBLE_TRAVEL indicator
fires in one run and not in the other. -/
theorem C3_hash_dependent_outcome :
    analyze_geographic_risk 0 (initState sampleProfile) ≠
      analyze_geographic_risk 7 (initState sampleProfile) := by
  intro hEq
  have e0 : (analyze_geographic_risk 0 (initState sampleProfile)).2.length = 1 := by
    decide
  have e7 : (analyze_geographic_risk 7 (initState sampleProfile)).2.length = 0 := by
    decide
  have h2 : (1:ℕ) = 0 := by rw [← e0, ← e7, hEq]
  exact one_ne_zero h2

end CustomerRiskPlatform
